import Mathlib

/-!
Shallow embedding of `src/sandbox_server.py` (sandbox-mcp).

The server keeps an in-memory registry `self.containers : Dict[str, dict]`
mapping container ids to `{mount_path, is_temp_dir, files}`.  Python dicts
are modelled as association lists with insertion-order semantics
(`dictInsert` updates in place when the key exists, appends otherwise),
matching CPython dict assignment.  The host filesystem is modelled as a
record of existing directories and a path-to-content file map.  External
collaborators (the docker client, the HTTP client, fallible filesystem
calls) are modelled as explicit oracle parameters describing the outcome
the collaborator produced during the call, so every tool handler becomes a
pure function from the prior state and the oracle to the next state and
the returned message string.
-/

/-- Python dict lookup `d.get(k)` / `d[k]` on an association list:
first binding wins (keys are unique in states reachable from the code). -/
def dictGet {α : Type} : List (String × α) → String → Option α
  | [], _ => none
  | (k0, v0) :: rest, k => if k0 == k then some v0 else dictGet rest k

/-- Python dict assignment `d[k] = v`: update in place when the key exists
(keeping its position), append at the end otherwise. -/
def dictInsert {α : Type} : List (String × α) → String → α → List (String × α)
  | [], k, v => [(k, v)]
  | (k0, v0) :: rest, k, v =>
      if k0 == k then (k, v) :: rest else (k0, v0) :: dictInsert rest k v

/-- Python `del d[k]`: drop the (first, unique) binding of `k`. -/
def dictRemove {α : Type} : List (String × α) → String → List (String × α)
  | [], _ => []
  | (k0, v0) :: rest, k => if k0 == k then rest else (k0, v0) :: dictRemove rest k

/-- Python `d.keys()` in iteration order. -/
def dictKeys {α : Type} (d : List (String × α)) : List String := d.map Prod.fst

/-- Boolean list membership used for runtime-known handles and directories. -/
def memb (l : List String) (a : String) : Bool := l.any (fun x => x == a)

/-- The per-container info dict stored by the server:
`{'mount_path': ..., 'is_temp_dir': ..., 'files': {...}}`. -/
structure ContainerInfo where
  mount_path : String
  is_temp_dir : Bool
  files : List (String × String)
deriving DecidableEq

/-- Host filesystem model: the set of existing directories and the regular
files (absolute path to content). -/
structure FS where
  dirs : List String
  files : List (String × String)
deriving DecidableEq

/-- `Path(p).mkdir(parents=True, exist_ok=True)` / `tempfile.mkdtemp()`:
ensure directory `p` exists. -/
def FS.mkdirp (fs : FS) (p : String) : FS :=
  { fs with dirs := if memb fs.dirs p then fs.dirs else fs.dirs ++ [p] }

/-- `open(p, "w").write(c)`: create or overwrite the file at path `p`. -/
def FS.writeFile (fs : FS) (p c : String) : FS :=
  { fs with files := dictInsert fs.files p c }

/-- `shutil.rmtree(p)`: remove directory `p` and everything under it. -/
def FS.rmtree (fs : FS) (p : String) : FS :=
  { dirs := fs.dirs.filter (fun d => !(d == p)),
    files := fs.files.filter (fun q => !((q.1 == p) || List.isPrefixOf (p ++ "/").data q.1.data)) }

/-- The server state: the registry `self.containers` plus the host
filesystem it writes to. -/
structure ServerState where
  containers : List (String × ContainerInfo)
  fs : FS
deriving DecidableEq

/-- A POSIX-absolute path: one that begins with a slash. -/
def isAbsolute (p : String) : Bool :=
  match p.data with
  | [] => false
  | c :: _ => c == '/'

/-- `pathlib.Path(base) / child`: joining with an absolute `child` discards
`base` entirely; otherwise the two are joined with a separator. -/
def pathJoin (base child : String) : String :=
  if isAbsolute child then child else base ++ "/" ++ child

/-- `p` designates a location inside directory `dir` (the directory
itself or a path strictly below it). -/
def insideDir (dir p : String) : Bool :=
  (p == dir) || List.isPrefixOf (dir ++ "/").data p.data

/-- Outcome of `self.docker_client.containers.run(...)` in create:
either a new container id, the specially-caught `docker.errors.ImageNotFound`,
or any other exception (caught generically). -/
inductive CreateOutcome
  | ok (handle : String)
  | imageNotFound
  | fault (msg : String)
deriving DecidableEq

/-- Outcome of `container.exec_run(...)`. -/
inductive ExecOutcome
  | output (text : String)
  | fault (msg : String)

/-- The docker daemon as seen through the client: which container ids
`containers.get` resolves, and what `exec_run` returns on each of them.
This is deliberately independent of the registry: docker may know
containers the server never tracked. -/
structure Runtime where
  known : List String
  execRun : String → String → ExecOutcome

/-- Outcome of `requests.get(download_url, stream=True, timeout=30)`. -/
inductive HttpResponse
  | ok (contentDisposition : Option String) (body : String)
  | timeout
  | requestError (msg : String)
deriving DecidableEq

/-- One download attempt: the raw URL (used in messages), its parsed path
component `urlparse(url).path`, the HTTP outcome, and whether the streamed
write of the body to the workspace succeeded. -/
structure DownloadSpec where
  url : String
  urlPath : String
  response : HttpResponse
  writeOk : Bool
  writeErr : String
deriving DecidableEq

/-- `os.path.basename`: the component after the last slash (the longest
slash-free suffix). -/
def basename (p : String) : String :=
  ⟨(p.data.reverse.takeWhile (fun c => !(c == '/'))).reverse⟩

/-- Quote characters stripped by `.strip("\x27\x22")` in the source. -/
def isQuoteChar (c : Char) : Bool := c == Char.ofNat 39 || c == Char.ofNat 34

/-- Python `s.strip("\x27\x22")`: drop all leading and trailing quote
characters. -/
def stripQuotes (s : String) : String :=
  ⟨((s.data.dropWhile isQuoteChar).reverse.dropWhile isQuoteChar).reverse⟩

/-- `re.search(r"filename=\x22?([^\x22]+)\x22?", cd)`: scan for the first
position where `filename=`, an optional double quote, and then a nonempty
run of non-quote characters (the capture group) match. -/
def cdSearch : List Char → Option String
  | [] => none
  | c :: rest =>
      if List.isPrefixOf ("filename=".data) (c :: rest) then
        let after := (c :: rest).drop 9
        let after2 :=
          match after with
          | q :: t => if q == Char.ofNat 34 then t else after
          | [] => []
        let cap := after2.takeWhile (fun ch => !(ch == Char.ofNat 34))
        if cap.isEmpty then cdSearch rest else some ⟨cap⟩
      else cdSearch rest

/-- Target-filename derivation in create (lines 77-92 of the source):
last URL path segment first; if empty, the Content-Disposition filename
(stripped of quotes); if still empty, the literal `downloaded_file`. -/
def deriveFilename (urlPath : String) (cd : Option String) : String :=
  let f1 := basename urlPath
  let f2 :=
    if f1 ≠ "" then f1
    else
      match cd with
      | some c =>
          match cdSearch c.data with
          | some cap => stripQuotes cap
          | none => ""
      | none => ""
  if f2 ≠ "" then f2 else "downloaded_file"

/-- The download block of create (lines 71-107): on HTTP success write the
body to `mount_path/filename` (itself fallible), otherwise leave the
filesystem alone; always produce the status line the source appends to the
creation message. -/
def doDownload (fs : FS) (mount_path : String) (d : DownloadSpec) : FS × String :=
  match d.response with
  | HttpResponse.timeout =>
      (fs, "\nFailed to download file from " ++ d.url ++ ": Timeout.")
  | HttpResponse.requestError m =>
      (fs, "\nFailed to download file from " ++ d.url ++ ": " ++ m ++ ".")
  | HttpResponse.ok cd body =>
      let fname := deriveFilename d.urlPath cd
      let target := pathJoin mount_path fname
      if d.writeOk then
        (FS.writeFile fs target body,
         "\nFile \x27" ++ fname ++ "\x27 downloaded to /workspace.")
      else
        (fs, "\nError processing download for " ++ d.url ++ ": " ++ d.writeErr ++ ".")

/-- True when the download block ended in any of its failure branches
(timeout, transport error, or write failure). -/
def downloadFails (d : DownloadSpec) : Bool :=
  match d.response with
  | HttpResponse.ok _ _ => !d.writeOk
  | _ => true

/-- Workspace resolution in create (lines 36-44): a truthy override path is
used as-is with `is_temp_dir = false`; otherwise `tempfile.mkdtemp()`
(the oracle-supplied fresh name) with `is_temp_dir = true`. -/
def resolveMount (host_workspace_path : Option String) (tmpdir : String) : String × Bool :=
  match host_workspace_path with
  | some p => if p ≠ "" then (p, false) else (tmpdir, true)
  | none => (tmpdir, true)

/-- Oracle for one create call: the fresh temp-directory name and the
docker run outcome. -/
structure CreateOracle where
  tmpdir : String
  createResult : CreateOutcome

/-- Tool `create_container_environment` (lines 23-119): resolve the mount
directory and ensure it exists, run the container, and only on success
insert the registry record (with an empty file manifest) and then attempt
the optional download, whose failure only degrades the status text. -/
def create_container_environment (st : ServerState) (image : String) (persist : Bool)
    (host_workspace_path : Option String) (download_url : Option DownloadSpec)
    (o : CreateOracle) : ServerState × String :=
  let mp := resolveMount host_workspace_path o.tmpdir
  let mount_path := mp.1
  let is_temp_dir := mp.2
  let fs1 := FS.mkdirp st.fs mount_path
  match o.createResult with
  | CreateOutcome.imageNotFound =>
      ({ st with fs := fs1 },
       "Error: Image " ++ image ++ " not found. Please verify the image name.")
  | CreateOutcome.fault m =>
      ({ st with fs := fs1 }, "Error creating container: " ++ m)
  | CreateOutcome.ok cid =>
      let st2 : ServerState :=
        { containers := dictInsert st.containers cid
            { mount_path := mount_path, is_temp_dir := is_temp_dir, files := [] },
          fs := fs1 }
      match download_url with
      | none =>
          (st2, "Container created with ID: " ++ cid ++
            "\nWorking directory is /workspace\nContainer is ready for commands")
      | some d =>
          let dl := doDownload st2.fs mount_path d
          ({ st2 with fs := dl.1 },
           "Container created with ID: " ++ cid ++
             "\nWorking directory is /workspace\nContainer is ready for commands" ++ dl.2)

/-- Tool `create_file_in_container` (lines 122-151): reject ids absent from
the registry; otherwise write `mount_path/filename` on the host (fallible,
outcome given by `write`) and only after a successful write record the
filename and content in the manifest. -/
def create_file_in_container (st : ServerState) (container_id filename content : String)
    (write : Except String Unit) : ServerState × String :=
  match dictGet st.containers container_id with
  | none => (st, "Container " ++ container_id ++ " not found")
  | some container_info =>
      let file_path := pathJoin container_info.mount_path filename
      match write with
      | Except.ok _ =>
          ({ containers := dictInsert st.containers container_id
               { container_info with
                   files := dictInsert container_info.files filename content },
             fs := FS.writeFile st.fs file_path content },
           "File " ++ filename ++ " has been created in /workspace")
      | Except.error e => (st, "Error creating file: " ++ e)

/-- Tool `execute_command_in_container` (lines 154-177): no registry check
at all; `containers.get` resolves the id against docker and the exec
output is returned decoded, with `docker.errors.NotFound` mapped to the
not-found message. -/
def execute_command_in_container (rt : Runtime) (st : ServerState)
    (container_id command : String) : ServerState × String :=
  if memb rt.known container_id then
    match rt.execRun container_id command with
    | ExecOutcome.output out => (st, out)
    | ExecOutcome.fault m => (st, "Error executing command: " ++ m)
  else (st, "Container " ++ container_id ++ " not found")

/-- The `dockerfile` list literal of tool `export_dockerfile`
(lines 230-238): base image, workspace declaration, one COPY line per key
of the file manifest in iteration order, then the fixed comment block.
An id unknown to the registry contributes no COPY lines
(`self.containers.get(container_id, \x7b\x7d)`). -/
def export_dockerfile_lines (info : Option ContainerInfo) (image : String) : List String :=
  let history :=
    (match info with
     | some i => dictKeys i.files
     | none => []).map (fun file => "COPY " ++ file ++ " /workspace/" ++ file)
  ["FROM " ++ image, "WORKDIR /workspace"] ++ history ++
    ["\n# Add any additional steps needed:",
     "# RUN pip install <packages>",
     "# COPY <src> <dest>",
     "# etc."]

/-- Tool `export_dockerfile` (lines 208-251): the id is resolved against
docker first (NotFound short-circuits); `image` is the oracle-supplied
`container.attrs` base image; the joined recipe is wrapped in usage
instructions. -/
def export_dockerfile (rt : Runtime) (st : ServerState) (container_id image : String) : String :=
  if memb rt.known container_id then
    "Here\x27s a Dockerfile to recreate this environment:\n\n" ++
      String.intercalate "\n" (export_dockerfile_lines (dictGet st.containers container_id) image) ++
      "\n\nTo use this Dockerfile:\n1. Save it to a file named \x27Dockerfile\x27\n2. Build: docker build -t your-image-name .\n3. Run: docker run -it your-image-name"
  else "Container " ++ container_id ++ " not found"

/-- Oracle for one exit call: whether the graceful stop, the removal and
the temp-directory cleanup each succeed, and the exception texts used in
the corresponding failure messages. -/
structure DestroyOracle where
  stopOk : Bool
  stopErr : String
  removeOk : Bool
  removeErr : String
  rmtreeOk : Bool
deriving DecidableEq

/-- Tool `exit_container` (lines 254-295): resolve against docker, then
without `force` a failed graceful stop aborts the whole call with an
actionable message; a failed remove likewise aborts; after removal the
temp directory is deleted best-effort (a failure is only printed) and the
registry entry is dropped unconditionally. -/
def exit_container (rt : Runtime) (st : ServerState) (container_id : String)
    (force : Bool) (o : DestroyOracle) : ServerState × String :=
  if memb rt.known container_id then
    let container_info := dictGet st.containers container_id
    if !force && !o.stopOk then
      (st, "Failed to stop container gracefully: " ++ o.stopErr ++
        ". Try using force=True if needed.")
    else if !o.removeOk then
      (st, "Error cleaning up container: " ++ o.removeErr)
    else
      let fs2 :=
        match container_info with
        | some info =>
            if info.is_temp_dir then
              if o.rmtreeOk then FS.rmtree st.fs info.mount_path else st.fs
            else st.fs
        | none => st.fs
      ({ containers := dictRemove st.containers container_id, fs := fs2 },
       "Container " ++ container_id ++ " has been stopped and removed.")
  else (st, "Container " ++ container_id ++ " not found")

/-! Concrete states, runtimes and oracles used by witnesses and
counterexamples below. -/

/-- The empty server state: fresh registry, no directories, no files. -/
def stEmpty : ServerState := ⟨[], ⟨[], []⟩⟩

/-- A registered ephemeral environment record for container `c1`. -/
def infoTmp : ContainerInfo := ⟨"/tmp/w", true, []⟩

/-- A server state tracking container `c1` with its temp workspace. -/
def stTmp : ServerState := ⟨[("c1", infoTmp)], ⟨["/tmp/w"], []⟩⟩

/-- A docker daemon that knows container `c1` and echoes `ok` on exec. -/
def rtC1known : Runtime := ⟨["c1"], fun _ _ => ExecOutcome.output "ok"⟩

/-- A docker daemon that knows no container at all. -/
def rtNone : Runtime := ⟨[], fun _ _ => ExecOutcome.output ""⟩

/-- A destroy call during which every collaborator call succeeds. -/
def oAllOk : DestroyOracle := ⟨true, "", true, "", true⟩

/-- A destroy call during which only the temp-directory removal fails. -/
def oRmtreeFails : DestroyOracle := ⟨true, "", true, "", false⟩

/-- A destroy call during which the graceful stop raises `boom`. -/
def oStopFails : DestroyOracle := ⟨false, "boom", true, "", true⟩

/-- A create call during which docker raises ImageNotFound. -/
def oImgNF : CreateOracle := ⟨"/tmp/t1", CreateOutcome.imageNotFound⟩

/-- A create call during which docker returns container id `c9`. -/
def oRunOk : CreateOracle := ⟨"/tmp/t1", CreateOutcome.ok "c9"⟩

/-- A download attempt that times out. -/
def dlTimeout : DownloadSpec := ⟨"http://host", "", HttpResponse.timeout, true, ""⟩

/-! Helper lemmas about the dict model and the filesystem model. -/

theorem dictGet_insert_self {α : Type} (d : List (String × α)) (k : String) (v : α) :
    dictGet (dictInsert d k v) k = some v := by
  induction d with
  | nil => simp [dictInsert, dictGet]
  | cons hd tl ih =>
      obtain ⟨k0, v0⟩ := hd
      by_cases h : k0 == k
      · simp [dictInsert, dictGet, h]
      · simp [dictInsert, dictGet, h, ih]

theorem dictGet_eq_none_iff {α : Type} (d : List (String × α)) (k : String) :
    dictGet d k = none ↔ k ∉ dictKeys d := by
  induction d with
  | nil => simp [dictGet, dictKeys]
  | cons hd tl ih =>
      obtain ⟨k0, v0⟩ := hd
      by_cases h : k0 == k
      · have hk : k0 = k := by simpa using h
        simp [dictGet, dictKeys, h, hk]
      · have hk : ¬ k0 = k := by simpa using h
        have hkeys : dictKeys ((k0, v0) :: tl) = k0 :: dictKeys tl := rfl
        rw [hkeys]
        simp only [List.mem_cons, not_or]
        have hL : dictGet ((k0, v0) :: tl) k = dictGet tl k := by simp [dictGet, h]
        rw [hL, ih]
        constructor
        · intro hn
          exact ⟨fun hc => hk hc.symm, hn⟩
        · intro hn
          exact hn.2

theorem dictGet_remove_self {α : Type} (d : List (String × α)) (k : String)
    (hnd : (dictKeys d).Nodup) : dictGet (dictRemove d k) k = none := by
  induction d with
  | nil => simp [dictRemove, dictGet]
  | cons hd tl ih =>
      obtain ⟨k0, v0⟩ := hd
      simp only [dictKeys, List.map_cons, List.nodup_cons] at hnd
      by_cases h : k0 == k
      · have hk : k0 = k := by simpa using h
        have : k ∉ dictKeys tl := by
          simpa [dictKeys, hk] using hnd.1
        simpa [dictRemove, h] using (dictGet_eq_none_iff tl k).mpr this
      · simpa [dictRemove, dictGet, h] using ih hnd.2

theorem dictKeys_insert_of_get_some {α : Type} (d : List (String × α)) (k : String)
    (v0 v : α) (h : dictGet d k = some v0) :
    dictKeys (dictInsert d k v) = dictKeys d := by
  induction d with
  | nil => simp [dictGet] at h
  | cons hd tl ih =>
      obtain ⟨k0, w0⟩ := hd
      by_cases hk : k0 == k
      · have hk2 : k0 = k := by simpa using hk
        simp [dictInsert, dictKeys, hk, hk2]
      · have h2 : dictGet tl k = some v0 := by simpa [dictGet, hk] using h
        simp [dictInsert, dictKeys, hk]
        simpa [dictKeys] using ih h2

theorem dictInsert_of_get_none {α : Type} (d : List (String × α)) (k : String) (v : α)
    (h : dictGet d k = none) : dictInsert d k v = d ++ [(k, v)] := by
  induction d with
  | nil => simp [dictInsert]
  | cons hd tl ih =>
      obtain ⟨k0, w0⟩ := hd
      by_cases hk : k0 == k
      · simp [dictGet, hk] at h
      · have h2 : dictGet tl k = none := by simpa [dictGet, hk] using h
        simp [dictInsert, hk, ih h2]

theorem dictKeys_insert_nodup {α : Type} (d : List (String × α)) (k : String) (v : α)
    (hnd : (dictKeys d).Nodup) : (dictKeys (dictInsert d k v)).Nodup := by
  cases hg : dictGet d k with
  | some v0 => simpa [dictKeys_insert_of_get_some d k v0 v hg] using hnd
  | none =>
      have hnm : k ∉ dictKeys d := (dictGet_eq_none_iff d k).mp hg
      rw [dictInsert_of_get_none d k v hg]
      have hkeys : dictKeys (d ++ [(k, v)]) = dictKeys d ++ [k] := by simp [dictKeys]
      rw [hkeys, List.nodup_append]
      refine ⟨hnd, List.nodup_singleton k, ?_⟩
      intro a ha hb
      have hak : a = k := by simpa using hb
      exact hnm (hak ▸ ha)

theorem memb_mkdirp_self (fs : FS) (p : String) : memb (FS.mkdirp fs p).dirs p = true := by
  cases h : memb fs.dirs p
  · have hd : (FS.mkdirp fs p).dirs = fs.dirs ++ [p] := by simp [FS.mkdirp, h]
    rw [hd]
    simp [memb]
  · have hd : (FS.mkdirp fs p).dirs = fs.dirs := by simp [FS.mkdirp, h]
    rw [hd]
    exact h

theorem memb_filter_ne_self (l : List String) (p : String) :
    memb (l.filter (fun d => !(d == p))) p = false := by
  induction l with
  | nil => simp [memb]
  | cons hd tl ih =>
      by_cases h : hd == p
      · simpa [List.filter, h] using ih
      · simpa [List.filter, h, memb] using ih

theorem doDownload_dirs (fs : FS) (mp : String) (d : DownloadSpec) :
    (doDownload fs mp d).1.dirs = fs.dirs := by
  cases hr : d.response with
  | ok cd body =>
      by_cases hw : d.writeOk
      · simp [doDownload, hr, hw, FS.writeFile]
      · simp [doDownload, hr, hw]
  | timeout => simp [doDownload, hr]
  | requestError m => simp [doDownload, hr]

theorem str_append_ne_empty (a b : String) (h : a.data ≠ []) : a ++ b ≠ "" := by
  intro hc
  apply h
  have hd : a.data ++ b.data = [] := congrArg String.data hc
  exact (List.append_eq_nil.mp hd).1

theorem str_append_data_ne_nil (a b : String) (h : a.data ≠ []) : (a ++ b).data ≠ [] := by
  intro hc
  have hd : a.data ++ b.data = [] := hc
  exact h (List.append_eq_nil.mp hd).1

theorem write_step (st : ServerState) (cid f c : String) (info : ContainerInfo)
    (hreg : dictGet st.containers cid = some info) :
    (create_file_in_container st cid f c (Except.ok ())).1.containers
      = dictInsert st.containers cid { info with files := dictInsert info.files f c } := by
  simp [create_file_in_container, hreg]

theorem execute_preserves_state (rt : Runtime) (st : ServerState) (cid cmd : String) :
    (execute_command_in_container rt st cid cmd).1 = st := by
  unfold execute_command_in_container
  cases hk : memb rt.known cid
  · simp [hk]
  · simp only [hk]
    cases hE : rt.execRun cid cmd <;> simp [hE]

/-! Claim theorems. -/

/-- Claim C3: create reports the image-not-found message and leaves the
Registry unchanged when docker run raises ImageNotFound; any other run
failure also leaves the Registry unchanged; a Registry record is inserted
exactly when the run call returns a container id, with its resolved mount
path, ephemerality flag, and an empty manifest. -/
theorem c3_insert_only_on_success (st : ServerState) (image : String) (persist : Bool)
    (hwp : Option String) (dl : Option DownloadSpec) (o : CreateOracle) :
    (o.createResult = CreateOutcome.imageNotFound →
        (create_container_environment st image persist hwp dl o).1.containers = st.containers
        ∧ (create_container_environment st image persist hwp dl o).2
            = "Error: Image " ++ image ++ " not found. Please verify the image name.")
    ∧ (∀ m, o.createResult = CreateOutcome.fault m →
        (create_container_environment st image persist hwp dl o).1.containers = st.containers)
    ∧ (∀ cid, o.createResult = CreateOutcome.ok cid →
        (create_container_environment st image persist hwp dl o).1.containers
          = dictInsert st.containers cid
              { mount_path := (resolveMount hwp o.tmpdir).1,
                is_temp_dir := (resolveMount hwp o.tmpdir).2, files := [] }) := by
  refine ⟨?_, ?_, ?_⟩
  · intro h
    exact ⟨by simp [create_container_environment, h], by simp [create_container_environment, h]⟩
  · intro m h
    simp [create_container_environment, h]
  · intro cid h
    cases dl with
    | none => simp [create_container_environment, h]
    | some d => simp [create_container_environment, h]

/-- Claim C3 witness: creating from a bogus image with an ImageNotFound
outcome on the empty state inserts nothing and reports the error. -/
theorem c3_insert_only_on_success_witness :
    (create_container_environment stEmpty "bogus:latest" false none none oImgNF).1.containers
      = stEmpty.containers
    ∧ (create_container_environment stEmpty "bogus:latest" false none none oImgNF).2
      = "Error: Image " ++ "bogus:latest" ++ " not found. Please verify the image name." :=
  (c3_insert_only_on_success stEmpty "bogus:latest" false none none oImgNF).1 rfl

/-- Claim C4: for a registered handle known to docker, a destroy without
force whose graceful stop fails returns only the actionable message
suggesting force=True, and the entire server state (Registry entry, file
manifest, workspace directories and files) is exactly unchanged: the call
aborts before removal. -/
theorem c4_failed_stop_aborts (rt : Runtime) (st : ServerState) (cid : String)
    (info : ContainerInfo) (o : DestroyOracle)
    (hreg : dictGet st.containers cid = some info)
    (hrt : memb rt.known cid = true)
    (hstop : o.stopOk = false) :
    exit_container rt st cid false o
      = (st, "Failed to stop container gracefully: " ++ o.stopErr ++
          ". Try using force=True if needed.") := by
  simp [exit_container, hrt, hstop]

/-- Claim C4 witness: the failed-stop abort on the concrete tracked state
with exception text boom. -/
theorem c4_failed_stop_aborts_witness :
    exit_container rtC1known stTmp "c1" false oStopFails
      = (stTmp, "Failed to stop container gracefully: " ++ "boom" ++
          ". Try using force=True if needed.") :=
  c4_failed_stop_aborts rtC1known stTmp "c1" infoTmp oStopFails rfl rfl rfl

/-- Claim C7: the download target filename is the last URL path segment
when that is nonempty; when it is empty, the quote-stripped capture of the
Content-Disposition filename parameter when the header is present and the
capture is nonempty; in every remaining case (no header, no regex match,
or a capture that strips to empty) the literal downloaded_file, so in
particular a URL with no path segment and a response with no header yields
exactly downloaded_file. -/
theorem c7_filename_derivation (urlPath : String) (cd : Option String) :
    (basename urlPath ≠ "" → deriveFilename urlPath cd = basename urlPath)
    ∧ (basename urlPath = "" → cd = none →
        deriveFilename urlPath cd = "downloaded_file")
    ∧ (∀ c cap, basename urlPath = "" → cd = some c → cdSearch c.data = some cap →
        stripQuotes cap ≠ "" → deriveFilename urlPath cd = stripQuotes cap)
    ∧ (∀ c cap, basename urlPath = "" → cd = some c → cdSearch c.data = some cap →
        stripQuotes cap = "" → deriveFilename urlPath cd = "downloaded_file")
    ∧ (∀ c, basename urlPath = "" → cd = some c → cdSearch c.data = none →
        deriveFilename urlPath cd = "downloaded_file") := by
  refine ⟨?_, ?_, ?_, ?_, ?_⟩
  · intro h
    simp [deriveFilename, h]
  · intro h hcd
    subst hcd
    simp [deriveFilename, h]
  · intro c cap h hcd hs hne
    subst hcd
    simp [deriveFilename, h, hs, hne]
  · intro c cap h hcd hs he
    subst hcd
    simp [deriveFilename, h, hs, he]
  · intro c h hcd hs
    subst hcd
    simp [deriveFilename, h, hs]

/-- Claim C7 witness: an empty URL path with no Content-Disposition header
yields the literal fallback filename. -/
theorem c7_filename_derivation_witness :
    deriveFilename "" none = "downloaded_file" :=
  (c7_filename_derivation "" none).2.1 rfl rfl

/-- Claim C8: a successful create with a nonempty explicit host workspace
path P inserts a record with mountPath P, ephemeral false and an empty
manifest, and P is among the existing host directories after the call
(whether or not it existed before, since the conclusion holds for every
prior state). -/
theorem c8_host_workspace (st : ServerState) (image : String) (persist : Bool)
    (P : String) (dl : Option DownloadSpec) (o : CreateOracle) (cid : String)
    (hP : P ≠ "") (hok : o.createResult = CreateOutcome.ok cid) :
    dictGet (create_container_environment st image persist (some P) dl o).1.containers cid
      = some { mount_path := P, is_temp_dir := false, files := [] }
    ∧ memb (create_container_environment st image persist (some P) dl o).1.fs.dirs P = true := by
  have hres : resolveMount (some P) o.tmpdir = (P, false) := by simp [resolveMount, hP]
  constructor
  · cases dl with
    | none =>
        simp [create_container_environment, hok, hres, dictGet_insert_self]
    | some d =>
        simp [create_container_environment, hok, hres, dictGet_insert_self]
  · cases dl with
    | none =>
        simp [create_container_environment, hok, hres, memb_mkdirp_self]
    | some d =>
        simp [create_container_environment, hok, hres, doDownload_dirs, memb_mkdirp_self]

/-- Claim C8 witness: creating with explicit path /hostws on the empty
state (where it does not exist yet). -/
theorem c8_host_workspace_witness :
    dictGet (create_container_environment stEmpty "python:3.9-slim" false (some "/hostws") none oRunOk).1.containers "c9"
      = some { mount_path := "/hostws", is_temp_dir := false, files := [] }
    ∧ memb (create_container_environment stEmpty "python:3.9-slim" false (some "/hostws") none oRunOk).1.fs.dirs "/hostws" = true :=
  c8_host_workspace stEmpty "python:3.9-slim" false "/hostws" none oRunOk "c9" (by decide) rfl

/-- Claim C1, counterexample: with an empty Registry but a docker daemon
that still knows container c1, execute_command_in_container does not
report not-found: it delegates straight to docker and returns the exec
output, so the claimed Registry-level rejection before delegating to the
runtime gateway does not exist in the code. -/
theorem c1_execute_skips_registry_counterexample :
    dictGet stEmpty.containers "c1" = none
    ∧ execute_command_in_container rtC1known stEmpty "c1" "echo hi" = (stEmpty, "ok")
    ∧ ("ok" : String) ≠ "Container c1 not found" :=
  ⟨rfl, rfl, by decide⟩

/-- Claim C1 (amended): for a handle absent from the Registry, write-file
reports the not-found message and leaves the state unchanged; execute
never consults the Registry — it leaves the server state unchanged but
resolves the handle only against the docker runtime, returning the exec
output when docker knows the handle and the not-found message exactly when
docker does not. -/
theorem c1_write_rejects_execute_delegates (rt : Runtime) (st : ServerState)
    (cid filename content cmd : String) (write : Except String Unit)
    (h : dictGet st.containers cid = none) :
    create_file_in_container st cid filename content write
      = (st, "Container " ++ cid ++ " not found")
    ∧ (execute_command_in_container rt st cid cmd).1 = st
    ∧ (memb rt.known cid = false →
        execute_command_in_container rt st cid cmd
          = (st, "Container " ++ cid ++ " not found"))
    ∧ (∀ out, memb rt.known cid = true → rt.execRun cid cmd = ExecOutcome.output out →
        execute_command_in_container rt st cid cmd = (st, out)) := by
  refine ⟨?_, execute_preserves_state rt st cid cmd, ?_, ?_⟩
  · simp [create_file_in_container, h]
  · intro hk
    simp [execute_command_in_container, hk]
  · intro out hk hE
    simp [execute_command_in_container, hk, hE]

/-- Claim C1 witness: the amended statement at the absent handle c9 on the
empty state with a docker daemon that knows nothing. -/
theorem c1_write_rejects_execute_delegates_witness :
    create_file_in_container stEmpty "c9" "a.py" "x" (Except.ok ())
      = (stEmpty, "Container " ++ "c9" ++ " not found")
    ∧ (execute_command_in_container rtNone stEmpty "c9" "ls").1 = stEmpty
    ∧ (memb rtNone.known "c9" = false →
        execute_command_in_container rtNone stEmpty "c9" "ls"
          = (stEmpty, "Container " ++ "c9" ++ " not found"))
    ∧ (∀ out, memb rtNone.known "c9" = true →
        rtNone.execRun "c9" "ls" = ExecOutcome.output out →
        execute_command_in_container rtNone stEmpty "c9" "ls" = (stEmpty, out)) :=
  c1_write_rejects_execute_delegates rtNone stEmpty "c9" "a.py" "x" "ls" (Except.ok ()) rfl

/-- Claim C2, counterexample: destroying the ephemeral record c1 while the
temp-directory removal fails still returns the success message and drops
the Registry record, yet the mount directory is left behind — so a
successful destroy call does not guarantee the directory no longer
exists. -/
theorem c2_dir_left_behind_counterexample :
    (exit_container rtC1known stTmp "c1" false oRmtreeFails).2
      = "Container c1 has been stopped and removed."
    ∧ dictGet (exit_container rtC1known stTmp "c1" false oRmtreeFails).1.containers "c1" = none
    ∧ memb (exit_container rtC1known stTmp "c1" false oRmtreeFails).1.fs.dirs "/tmp/w" = true :=
  ⟨rfl, rfl, rfl⟩

/-- Claim C2 (amended): on a successful destroy of a registered ephemeral
record the mount directory is gone provided the temp-directory removal
itself succeeded; when that removal fails the destroy still reports
success and drops the record, leaving the directory behind (the failure is
only printed); a non-ephemeral mount path is never touched by destroy; and
the directory is never removed before destruction, since write-file leaves
the directory set unchanged and execute leaves the whole state
unchanged. -/
theorem c2_ephemeral_cleanup (rt : Runtime) (st : ServerState) (cid : String)
    (info : ContainerInfo) (o : DestroyOracle)
    (hnd : (dictKeys st.containers).Nodup)
    (hreg : dictGet st.containers cid = some info)
    (hrt : memb rt.known cid = true)
    (hstop : o.stopOk = true) (hrem : o.removeOk = true) :
    (exit_container rt st cid false o).2
      = "Container " ++ cid ++ " has been stopped and removed."
    ∧ dictGet (exit_container rt st cid false o).1.containers cid = none
    ∧ (info.is_temp_dir = true → o.rmtreeOk = true →
        memb (exit_container rt st cid false o).1.fs.dirs info.mount_path = false)
    ∧ (info.is_temp_dir = true → o.rmtreeOk = false →
        (exit_container rt st cid false o).1.fs = st.fs)
    ∧ (info.is_temp_dir = false → (exit_container rt st cid false o).1.fs = st.fs)
    ∧ (∀ f c w, (create_file_in_container st cid f c w).1.fs.dirs = st.fs.dirs)
    ∧ (∀ cmd, (execute_command_in_container rt st cid cmd).1 = st) := by
  have he : exit_container rt st cid false o
      = ({ containers := dictRemove st.containers cid,
           fs := if info.is_temp_dir then
                    (if o.rmtreeOk then FS.rmtree st.fs info.mount_path else st.fs)
                  else st.fs },
         "Container " ++ cid ++ " has been stopped and removed.") := by
    simp [exit_container, hrt, hstop, hrem, hreg]
  refine ⟨by rw [he], ?_, ?_, ?_, ?_, ?_, fun cmd => execute_preserves_state rt st cid cmd⟩
  · rw [he]
    exact dictGet_remove_self st.containers cid hnd
  · intro h1 h2
    rw [he]
    simp only [h1, h2, if_true]
    simpa [FS.rmtree] using memb_filter_ne_self st.fs.dirs info.mount_path
  · intro h1 h2
    rw [he]
    simp [h1, h2]
  · intro h1
    rw [he]
    simp [h1]
  · intro f c w
    cases w with
    | ok u => simp [create_file_in_container, hreg, FS.writeFile]
    | error e => simp [create_file_in_container, hreg]

/-- Claim C2 witness: destroying the tracked ephemeral container c1 with
every collaborator call succeeding reports success and removes the mount
directory from the host. -/
theorem c2_ephemeral_cleanup_witness :
    (exit_container rtC1known stTmp "c1" false oAllOk).2
      = "Container " ++ "c1" ++ " has been stopped and removed."
    ∧ memb (exit_container rtC1known stTmp "c1" false oAllOk).1.fs.dirs "/tmp/w" = false :=
  ⟨(c2_ephemeral_cleanup rtC1known stTmp "c1" infoTmp oAllOk (by decide) rfl rfl rfl rfl).1,
   (c2_ephemeral_cleanup rtC1known stTmp "c1" infoTmp oAllOk (by decide) rfl rfl rfl rfl).2.2.1 rfl rfl⟩

/-- Claim C5: for a registered handle the exported recipe lines are the
base-image declaration, the workspace declaration, one COPY line per
manifest key in the manifest iteration order, then the fixed comment
block; and writing the same filename twice through write-file leaves the
key list identical to after the first write while the manifest holds only
the latest content — so an overwritten filename contributes exactly one
COPY line and no duplicate, the key list staying duplicate-free. -/
theorem c5_recipe_shape (st : ServerState) (cid image f c1 c2 : String)
    (info : ContainerInfo)
    (hreg : dictGet st.containers cid = some info)
    (hnd : (dictKeys info.files).Nodup) :
    export_dockerfile_lines (dictGet st.containers cid) image
      = ["FROM " ++ image, "WORKDIR /workspace"]
        ++ (dictKeys info.files).map (fun file => "COPY " ++ file ++ " /workspace/" ++ file)
        ++ ["\n# Add any additional steps needed:",
            "# RUN pip install <packages>", "# COPY <src> <dest>", "# etc."]
    ∧ (∀ info2,
        dictGet ((create_file_in_container
            ((create_file_in_container st cid f c1 (Except.ok ())).1)
            cid f c2 (Except.ok ())).1).containers cid = some info2 →
        dictKeys info2.files = dictKeys (dictInsert info.files f c1)
        ∧ dictGet info2.files f = some c2
        ∧ (dictKeys info2.files).Nodup) := by
  constructor
  · simp [export_dockerfile_lines, hreg]
  · intro info2 hget
    have hst1 : (create_file_in_container st cid f c1 (Except.ok ())).1.containers
        = dictInsert st.containers cid { info with files := dictInsert info.files f c1 } :=
      write_step st cid f c1 info hreg
    have hg1 : dictGet (create_file_in_container st cid f c1 (Except.ok ())).1.containers cid
        = some { info with files := dictInsert info.files f c1 } := by
      rw [hst1]
      exact dictGet_insert_self _ _ _
    have hst2 : (create_file_in_container
        ((create_file_in_container st cid f c1 (Except.ok ())).1)
        cid f c2 (Except.ok ())).1.containers
        = dictInsert (create_file_in_container st cid f c1 (Except.ok ())).1.containers cid
            { info with files := dictInsert (dictInsert info.files f c1) f c2 } :=
      write_step _ cid f c2 _ hg1
    have hg2 : dictGet ((create_file_in_container
        ((create_file_in_container st cid f c1 (Except.ok ())).1)
        cid f c2 (Except.ok ())).1).containers cid
        = some { info with files := dictInsert (dictInsert info.files f c1) f c2 } := by
      rw [hst2]
      exact dictGet_insert_self _ _ _
    rw [hg2] at hget
    have hi : info2 = { info with files := dictInsert (dictInsert info.files f c1) f c2 } :=
      (Option.some.inj hget).symm
    have hk1 : dictGet (dictInsert info.files f c1) f = some c1 :=
      dictGet_insert_self info.files f c1
    refine ⟨?_, ?_, ?_⟩
    · rw [hi]
      exact dictKeys_insert_of_get_some _ f c1 c2 hk1
    · rw [hi]
      exact dictGet_insert_self _ f c2
    · rw [hi]
      have hstep : (dictKeys (dictInsert info.files f c1)).Nodup :=
        dictKeys_insert_nodup info.files f c1 hnd
      have : dictKeys (dictInsert (dictInsert info.files f c1) f c2)
          = dictKeys (dictInsert info.files f c1) :=
        dictKeys_insert_of_get_some _ f c1 c2 hk1
      rw [this]
      exact hstep

/-- Claim C5 witness: the recipe for the tracked container c1 with its
(empty) manifest, and the double-write conclusion instantiated through the
theorem at filename a.py. -/
theorem c5_recipe_shape_witness :
    export_dockerfile_lines (dictGet stTmp.containers "c1") "python:3.9-slim"
      = ["FROM " ++ "python:3.9-slim", "WORKDIR /workspace"]
        ++ (dictKeys infoTmp.files).map (fun file => "COPY " ++ file ++ " /workspace/" ++ file)
        ++ ["\n# Add any additional steps needed:",
            "# RUN pip install <packages>", "# COPY <src> <dest>", "# etc."] :=
  (c5_recipe_shape stTmp "c1" "python:3.9-slim" "a.py" "print(1)" "print(2)" infoTmp rfl
    (by decide)).1

/-- Claim C6: when docker run succeeded but the requested download then
failed (timeout, transport error, or write failure), create still returns
the created-container text naming the new handle with the failure appended
as a nonempty degraded status line, and the Registry record inserted for
the handle is still present (with empty manifest), not rolled back. -/
theorem c6_download_failure_degrades (st : ServerState) (image : String) (persist : Bool)
    (hwp : Option String) (d : DownloadSpec) (o : CreateOracle) (cid : String)
    (hok : o.createResult = CreateOutcome.ok cid)
    (hfail : downloadFails d = true) :
    dictGet (create_container_environment st image persist hwp (some d) o).1.containers cid
      = some { mount_path := (resolveMount hwp o.tmpdir).1,
               is_temp_dir := (resolveMount hwp o.tmpdir).2, files := [] }
    ∧ (create_container_environment st image persist hwp (some d) o).2
      = "Container created with ID: " ++ cid ++
          "\nWorking directory is /workspace\nContainer is ready for commands"
        ++ (doDownload (FS.mkdirp st.fs (resolveMount hwp o.tmpdir).1)
              (resolveMount hwp o.tmpdir).1 d).2
    ∧ (doDownload (FS.mkdirp st.fs (resolveMount hwp o.tmpdir).1)
          (resolveMount hwp o.tmpdir).1 d).2 ≠ "" := by
  refine ⟨?_, ?_, ?_⟩
  · simp [create_container_environment, hok, dictGet_insert_self]
  · simp [create_container_environment, hok]
  · cases hr : d.response with
    | timeout =>
        simp only [doDownload, hr]
        exact str_append_ne_empty _ _
          (str_append_data_ne_nil "\nFailed to download file from " d.url (by decide))
    | requestError m =>
        simp only [doDownload, hr]
        exact str_append_ne_empty _ _
          (str_append_data_ne_nil _ m
            (str_append_data_ne_nil _ ": "
              (str_append_data_ne_nil "\nFailed to download file from " d.url (by decide))))
    | ok cd body =>
        have hw : d.writeOk = false := by
          simpa [downloadFails, hr] using hfail
        simp only [doDownload, hr, hw, Bool.false_eq_true, if_false]
        exact str_append_ne_empty _ _
          (str_append_data_ne_nil _ d.writeErr
            (str_append_data_ne_nil _ ": "
              (str_append_data_ne_nil "\nError processing download for " d.url (by decide))))

/-- Claim C6 witness: a timed-out download during a successful create of
container c9 on the empty state. -/
theorem c6_download_failure_degrades_witness :
    dictGet (create_container_environment stEmpty "python:3.9-slim" false none (some dlTimeout) oRunOk).1.containers "c9"
      = some { mount_path := (resolveMount none oRunOk.tmpdir).1,
               is_temp_dir := (resolveMount none oRunOk.tmpdir).2, files := [] }
    ∧ (create_container_environment stEmpty "python:3.9-slim" false none (some dlTimeout) oRunOk).2
      = "Container created with ID: " ++ "c9" ++
          "\nWorking directory is /workspace\nContainer is ready for commands"
        ++ (doDownload (FS.mkdirp stEmpty.fs (resolveMount none oRunOk.tmpdir).1)
              (resolveMount none oRunOk.tmpdir).1 dlTimeout).2
    ∧ (doDownload (FS.mkdirp stEmpty.fs (resolveMount none oRunOk.tmpdir).1)
          (resolveMount none oRunOk.tmpdir).1 dlTimeout).2 ≠ "" :=
  c6_download_failure_degrades stEmpty "python:3.9-slim" false none dlTimeout oRunOk "c9" rfl rfl

/-- Claim C10: write-file joins the caller filename to the record mount
path with no validation: an absolute filename pointing outside the
workspace is written verbatim at that host path (the join discards the
mount path), the host file map gains the file at that outside path, and
the manifest still records the filename as if it were a workspace file. -/
theorem c10_write_escapes_workspace (st : ServerState) (cid filename content : String)
    (info : ContainerInfo)
    (hreg : dictGet st.containers cid = some info)
    (habs : isAbsolute filename = true)
    (hout : insideDir info.mount_path filename = false) :
    pathJoin info.mount_path filename = filename
    ∧ insideDir info.mount_path (pathJoin info.mount_path filename) = false
    ∧ dictGet (create_file_in_container st cid filename content (Except.ok ())).1.fs.files filename
      = some content
    ∧ (∀ info2,
        dictGet (create_file_in_container st cid filename content (Except.ok ())).1.containers cid
          = some info2 → dictGet info2.files filename = some content) := by
  have hj : pathJoin info.mount_path filename = filename := by
    simp [pathJoin, habs]
  refine ⟨hj, by rw [hj]; exact hout, ?_, ?_⟩
  · simp only [create_file_in_container, hreg, FS.writeFile, hj]
    exact dictGet_insert_self _ _ _
  · intro info2 hget
    have h1 : dictGet (create_file_in_container st cid filename content (Except.ok ())).1.containers cid
        = some { info with files := dictInsert info.files filename content } := by
      simp only [create_file_in_container, hreg]
      exact dictGet_insert_self _ _ _
    rw [h1] at hget
    have hi : info2 = { info with files := dictInsert info.files filename content } :=
      (Option.some.inj hget).symm
    rw [hi]
    exact dictGet_insert_self _ _ _

/-- Claim C10 witness: writing filename /etc/hacked into tracked container
c1 (workspace /tmp/w) lands the file at the host path /etc/hacked, outside
the workspace, while the join discards the mount path. -/
theorem c10_write_escapes_workspace_witness :
    pathJoin infoTmp.mount_path "/etc/hacked" = "/etc/hacked"
    ∧ insideDir infoTmp.mount_path (pathJoin infoTmp.mount_path "/etc/hacked") = false
    ∧ dictGet (create_file_in_container stTmp "c1" "/etc/hacked" "boom" (Except.ok ())).1.fs.files "/etc/hacked"
      = some "boom" :=
  ⟨(c10_write_escapes_workspace stTmp "c1" "/etc/hacked" "boom" infoTmp rfl (by decide) (by decide)).1,
   (c10_write_escapes_workspace stTmp "c1" "/etc/hacked" "boom" infoTmp rfl (by decide) (by decide)).2.1,
   (c10_write_escapes_workspace stTmp "c1" "/etc/hacked" "boom" infoTmp rfl (by decide) (by decide)).2.2.1⟩
